import Mathlib

/-!
Verification of the SoupaWhisper push-to-talk dictation coordinator
(`src/dictate.py`) against its natural-language specification.

The development shallowly embeds the relevant parts of the Python source:

* `pyStrip` / `pyJoin` model `str.strip()` and `str.join()` as used in
  `Dictation.stop_recording` (line 205) to assemble the transcript.
* `Dictation.notify` is embedded with an explicit model of
  `subprocess.run` spawn outcomes.
* `load_config` is embedded over an association-list model of a
  `configparser` file, including the `getboolean` fallback semantics.
* The `Dictation` recording state machine (`start_recording` /
  `stop_recording` and the model-loader latch) is embedded as a pure
  step function on an explicit state, emitting a trace of effect events
  (process spawns, notifications, clipboard/typing dispatch, temp-file
  unlinks) so that ordering and resource properties can be stated.
-/

namespace SoupaWhisper

/-! ### Transcript assembly: `" ".join(segment.text.strip() for segment in segments)` -/

/-- Whitespace characters removed by Python `str.strip()` (ASCII model). -/
def pyIsSpace (c : Char) : Bool :=
  c = ' ' || c = '\t' || c = '\n' || c = '\x0d' || c = '\x0b' || c = '\x0c'

/-- Model of Python `str.strip()`: remove leading and trailing whitespace. -/
def pyStrip (s : String) : String :=
  String.mk (((s.data.dropWhile pyIsSpace).reverse.dropWhile pyIsSpace).reverse)

/-- Model of Python `sep.join(list)`: the separator is inserted between
consecutive elements, with no trailing or leading separator. -/
def pyJoin (sep : String) : List String → String
  | [] => ""
  | [x] => x
  | x :: y :: xs => x ++ sep ++ pyJoin sep (y :: xs)

/-- The transcript built by `stop_recording` (dictate.py line 205):
`" ".join(segment.text.strip() for segment in segments)`. -/
def transcriptOf (segs : List String) : String :=
  pyJoin " " (segs.map pyStrip)

/-- Spec-side rendering of "each segment's text trimmed of surrounding
whitespace ... space-joined concatenation ... in emission order", stated
with the library's `String.intercalate` for comparison with the
source-derived `transcriptOf`. -/
def specTranscript (segs : List String) : String :=
  String.intercalate " " (segs.map pyStrip)

/-- Concatenation of a list of strings, each preceded by the separator. -/
def sepConcat (sep : String) : List String → String
  | [] => ""
  | x :: xs => sep ++ x ++ sepConcat sep xs

theorem intercalate_go_eq (sep : String) :
    ∀ (l : List String) (acc : String),
      String.intercalate.go acc sep l = acc ++ sepConcat sep l := by
  intro l
  induction l with
  | nil => intro acc; simp [String.intercalate.go, sepConcat]
  | cons a as ih =>
    intro acc
    simp [String.intercalate.go, ih, sepConcat, String.append_assoc]

theorem pyJoin_cons_eq (sep : String) :
    ∀ (a : String) (as : List String),
      pyJoin sep (a :: as) = a ++ sepConcat sep as := by
  intro a as
  induction as generalizing a with
  | nil => simp [pyJoin, sepConcat]
  | cons b bs ih =>
    simp [pyJoin, sepConcat, ih, String.append_assoc]

theorem pyJoin_eq_intercalate (sep : String) (l : List String) :
    pyJoin sep l = String.intercalate sep l := by
  cases l with
  | nil => rfl
  | cons a as =>
    rw [pyJoin_cons_eq, String.intercalate, intercalate_go_eq]

/-! ### Notifier: `Dictation.notify` (dictate.py lines 134-149)

`notify` guards on the global `NOTIFICATIONS` flag and then calls
`subprocess.run([...], capture_output=True)` with no surrounding
`try/except`.  `subprocess.run` without `check=True` never raises on a
nonzero exit status, but raises `FileNotFoundError` when the executable
is absent. -/

/-- Outcome of attempting to spawn an external command. -/
inductive SpawnOutcome
  | absent
  | ran (exitCode : Int)
deriving DecidableEq, Repr

/-- Model of `subprocess.run(args, capture_output=True)` (no `check`):
spawning an absent executable raises `FileNotFoundError`; otherwise the
completed process is returned whatever its exit status. -/
def subprocessRun (args : List String) (outcome : SpawnOutcome) :
    Except String Int :=
  match outcome with
  | .absent => .error ("FileNotFoundError: " ++ args.headD "")
  | .ran code => .ok code

/-- The argv built by `Dictation.notify`. -/
def notifyArgs (title message icon : String) (timeout : Nat) : List String :=
  ["notify-send", "-a", "SoupaWhisper", "-i", icon, "-t", toString timeout,
   "-h", "string:x-canonical-private-synchronous:soupawhisper", title, message]

/-- Embedding of `Dictation.notify` (lines 134-149): return early when
notifications are disabled, otherwise run `notify-send`; any exception
from `subprocess.run` propagates to the caller. -/
def Dictation.notify (notificationsEnabled : Bool) (outcome : SpawnOutcome)
    (title message icon : String) (timeout : Nat) : Except String Unit :=
  if !notificationsEnabled then .ok ()
  else
    match subprocessRun (notifyArgs title message icon timeout) outcome with
    | .ok _ => .ok ()
    | .error e => .error e

/-! ### Config loading: `load_config` (dictate.py lines 43-66)

A parsed config file is modelled as an association list of sections,
each an association list of key/value strings.  `ConfigParser.get` with
a `fallback` returns the fallback when the section or key is absent;
`ConfigParser.getboolean` additionally parses the value against the
boolean vocabulary and raises `ValueError` when a present value does not
parse — the fallback does not cover that case. -/

/-- A parsed config file: sections of key/value pairs. -/
def ConfigFile := List (String × List (String × String))

/-- Look up a key in a key/value list (first match). -/
def kvLookup (kvs : List (String × String)) (key : String) : Option String :=
  match kvs.find? (fun p => p.1 = key) with
  | none => none
  | some (_, v) => some v

/-- The key/value pairs of a section (empty for an absent section). -/
def sectionKvs (file : ConfigFile) (sect : String) : List (String × String) :=
  match file.find? (fun p => p.1 = sect) with
  | none => []
  | some (_, kvs) => kvs

/-- Look up `sect.key` in the file (first match). -/
def cfgLookup (file : ConfigFile) (sect key : String) : Option String :=
  kvLookup (sectionKvs file sect) key

/-- ASCII lowercasing of one character, as `str.lower()` does on the
boolean vocabulary. -/
def pyCharLower (c : Char) : Char :=
  if 'A' ≤ c && c ≤ 'Z' then Char.ofNat (c.toNat + 32) else c

/-- Model of Python `str.lower()` (ASCII range). -/
def pyLower (s : String) : String :=
  String.mk (s.data.map pyCharLower)

/-- Python `configparser`'s boolean vocabulary (`BOOLEAN_STATES`),
matched against the lowercased value. -/
def pyParseBool (v : String) : Option Bool :=
  let lv := pyLower v
  if lv = "1" || lv = "yes" || lv = "true" || lv = "on" then some true
  else if lv = "0" || lv = "no" || lv = "false" || lv = "off" then some false
  else none

def interpSyntaxErr : String :=
  "InterpolationSyntaxError: percent must be followed by percent or open-paren"

def interpBadRefErr : String :=
  "InterpolationSyntaxError: bad interpolation variable reference"

def interpMissingErr : String :=
  "InterpolationMissingOptionError: bad value substitution"

/-- Scanner state of `BasicInterpolation._interpolate_some`: plain text,
just after a lone `%`, inside a `%(name` reference, or just after the
closing parenthesis of a reference (a conversion letter must follow). -/
inductive IMode
  | text
  | pct
  | ref (nm : List Char)
  | refClose (nm : List Char)

/-- One pass of configparser `BasicInterpolation` over a raw value:
`%%` yields a literal percent; `%(name)s` substitutes the section entry
for `name` (recursively interpolated, via `recur`, when it itself
contains a percent); a percent followed by anything else, an unclosed or
empty reference, or a conversion letter other than `s` raises
`InterpolationSyntaxError`; an unknown referenced option raises
`InterpolationMissingOptionError`. -/
def interpScan (mp : List (String × String))
    (recur : List Char → Except String (List Char)) :
    IMode → List Char → Except String (List Char)
  | .text, [] => .ok []
  | .text, c :: rest =>
    if c = '%' then interpScan mp recur .pct rest
    else (interpScan mp recur .text rest).map (fun acc => c :: acc)
  | .pct, [] => .error interpSyntaxErr
  | .pct, c :: rest =>
    if c = '%' then (interpScan mp recur .text rest).map (fun acc => '%' :: acc)
    else if c = '(' then interpScan mp recur (.ref []) rest
    else .error interpSyntaxErr
  | .ref _, [] => .error interpBadRefErr
  | .ref nm, c :: rest =>
    if c = ')' then
      if nm.isEmpty then .error interpBadRefErr
      else interpScan mp recur (.refClose nm) rest
    else interpScan mp recur (.ref (nm ++ [c])) rest
  | .refClose _, [] => .error interpBadRefErr
  | .refClose nm, c :: rest =>
    if c = 's' then
      match kvLookup mp (pyLower (String.mk nm)) with
      | none => .error interpMissingErr
      | some v =>
        if v.data.contains '%' then
          match recur v.data with
          | .error e => .error e
          | .ok vi => (interpScan mp recur .text rest).map (fun acc => vi ++ acc)
        else (interpScan mp recur .text rest).map (fun acc => v.data ++ acc)
    else .error interpBadRefErr

/-- Interpolation with configparser's nesting bound
(`MAX_INTERPOLATION_DEPTH = 10`): exhausting the bound raises
`InterpolationDepthError`. -/
def interpDepth (mp : List (String × String)) :
    Nat → List Char → Except String (List Char)
  | 0, _ => .error "InterpolationDepthError: interpolation depth exceeded"
  | d + 1, cs => interpScan mp (fun v => interpDepth mp d v) IMode.text cs

/-- Interpolate a raw value of section `sect`, resolving `%(name)s`
references against that section's entries. -/
def cfgInterp (file : ConfigFile) (sect : String) (v : String) :
    Except String String :=
  match interpDepth (sectionKvs file sect) 10 v.data with
  | .error e => .error e
  | .ok cs => .ok (String.mk cs)

/-- `config.get(sect, key, fallback=fb)`: the fallback covers an absent
section or key only; a present value is interpolated, and interpolation
errors propagate. -/
def cfgGetFallback (file : ConfigFile) (sect key fb : String) :
    Except String String :=
  match cfgLookup file sect key with
  | none => .ok fb
  | some v => cfgInterp file sect v

/-- `config.getboolean(sect, key, fallback=fb)`: the fallback covers an
absent section or key; a present value is interpolated (errors
propagate) and then parsed, and a malformed boolean raises
`ValueError`. -/
def cfgGetbooleanFallback (file : ConfigFile) (sect key : String) (fb : Bool) :
    Except String Bool :=
  match cfgLookup file sect key with
  | none => .ok fb
  | some v =>
    match cfgInterp file sect v with
    | .error e => .error e
    | .ok iv =>
      match pyParseBool iv with
      | some b => .ok b
      | none => .error ("ValueError: Not a boolean: " ++ iv)

/-- The resolved configuration record. -/
structure Config where
  model : String
  device : String
  compute_type : String
  key : String
  auto_type : Bool
  notifications : Bool
deriving DecidableEq, Repr

/-- The documented default configuration. -/
def defaultConfig : Config :=
  { model := "base.en", device := "cpu", compute_type := "int8",
    key := "f12", auto_type := true, notifications := true }

/-- Embedding of `load_config` (lines 43-66).  The six options are
resolved in the evaluation order of the Python dict literal; the first
error raised by `get`/`getboolean` (interpolation error or `ValueError`)
propagates. -/
def load_config (file : ConfigFile) : Except String Config :=
  match cfgGetFallback file "whisper" "model" "base.en" with
  | .error e => .error e
  | .ok modelV =>
  match cfgGetFallback file "whisper" "device" "cpu" with
  | .error e => .error e
  | .ok deviceV =>
  match cfgGetFallback file "whisper" "compute_type" "int8" with
  | .error e => .error e
  | .ok ctV =>
  match cfgGetFallback file "hotkey" "key" "f12" with
  | .error e => .error e
  | .ok keyV =>
  match cfgGetbooleanFallback file "behavior" "auto_type" true with
  | .error e => .error e
  | .ok a =>
  match cfgGetbooleanFallback file "behavior" "notifications" true with
  | .error e => .error e
  | .ok n =>
    .ok { model := modelV, device := deviceV, compute_type := ctV,
          key := keyV, auto_type := a, notifications := n }

/-! ### The `Dictation` recording state machine (dictate.py lines 106-271)

State fields mirror the Python instance attributes: `recording`,
`record_process`, `temp_file`, `model_error`, plus `loaderDone` for the
`model_loaded` threading event and `fsFiles` for the set of temp files
currently existing on disk (`os.path.exists` / `os.unlink`).  Temp files
and process handles are identified by `Nat` tokens supplied by the
environment.  Every externally visible effect is emitted as an `Event`
so that ordering, dispatch and resource claims can be stated on traces. -/

/-- Externally visible effects of the controller.  `notifyEv title` is
the invocation of `self.notify` with that title (whether the
notification is displayed, swallowed, or raises depends on the
`NOTIFICATIONS` flag and the command's availability, modelled separately
by `Dictation.notify`). -/
inductive Event
  | createTemp (f : Nat)
  | spawnCapture (f : Nat)
  | terminateCapture
  | notifyEv (title : String)
  | awaitModel
  | transcribeCall (f : Nat)
  | setClipboard (text : String)
  | typeText (text : String)
  | unlinkTemp (f : Nat)
deriving DecidableEq, Repr

/-- The mutable state of a `Dictation` instance, plus the on-disk temp
files. -/
structure DState where
  recording : Bool
  record_process : Option Nat
  temp_file : Option Nat
  model_error : Option String
  loaderDone : Bool
  fsFiles : List Nat
deriving DecidableEq, Repr

/-- `Dictation.__init__`: not recording, no process, no temp file, no
model error, loader latch unset; no temp files on disk. -/
def initState : DState :=
  { recording := false, record_process := none, temp_file := none,
    model_error := none, loaderDone := false, fsFiles := [] }

/-- `_load_model` finishing (lines 120-132): on success the latch is set
with no error recorded; on failure `model_error` is set to the message
and the latch is set. -/
def applyLoaderFinish (r : Except String Unit) (s : DState) : DState :=
  { s with loaderDone := true,
           model_error := match r with
             | .ok _ => s.model_error
             | .error e => some e }

/-- `model_loaded.wait()` (line 190): if the loader already finished the
state is unchanged, otherwise the call blocks until the loader finishes
with result `r`. -/
def afterWait (r : Except String Unit) (s : DState) : DState :=
  if s.loaderDone then s else applyLoaderFinish r s

/-- The model-readiness states of the spec's `ModelState`. -/
inductive MState
  | Loading
  | Ready
  | Failed (e : String)
deriving DecidableEq, Repr

/-- The spec-level `ModelState` read off the embedded state. -/
def modelStateOf (s : DState) : MState :=
  if s.loaderDone then
    match s.model_error with
    | some e => .Failed e
    | none => .Ready
  else .Loading

/-- Python truthiness of the `model_error` attribute: `None` and the
empty string (as produced by `str(e)` for an exception with no message)
are falsy; only a non-empty recorded error message is truthy. -/
def pyTruthyErr : Option String → Bool
  | none => false
  | some e => !(e = "")

/-- `Dictation.start_recording` (lines 151-173).  The guard
`if self.recording or self.model_error:` tests Python truthiness of the
recorded error, so an empty recorded error message does not block.
`newTemp` is the fresh temp-file token chosen by
`tempfile.NamedTemporaryFile` and `pid` the handle returned by
`subprocess.Popen`. -/
def start_recording (s : DState) (newTemp pid : Nat) : DState × List Event :=
  if s.recording || pyTruthyErr s.model_error then (s, [])
  else
    ({ s with recording := true,
              temp_file := some newTemp,
              fsFiles := newTemp :: s.fsFiles,
              record_process := some pid },
     [Event.createTemp newTemp, Event.spawnCapture newTemp,
      Event.notifyEv "Recording..."])

/-- Outcome of the `self.model.transcribe` call in the `try` block:
either the engine yields a segment list, or the call raises. -/
inductive TranscribeOutcome
  | segs (l : List String)
  | raises (msg : String)
deriving DecidableEq, Repr

/-- The `finally` block (lines 237-240): unlink the temp file if one is
recorded and it still exists on disk. -/
def cleanupTemp (s : DState) : DState × List Event :=
  match s.temp_file with
  | none => (s, [])
  | some f =>
    if s.fsFiles.contains f then
      ({ s with fsFiles := s.fsFiles.erase f }, [Event.unlinkTemp f])
    else (s, [])

/-- `Dictation.stop_recording` (lines 175-240).  `loaderRes` is the
loader's result observed if the `model_loaded.wait()` call has to block;
`tr` is the outcome of the transcription call; `autoType` is the
`AUTO_TYPE` config flag; `notifyRaises` is true when the `self.notify`
calls themselves raise `FileNotFoundError` (notifications enabled with
the notification command absent), in which case the handler aborts at
the line-187 "Transcribing..." notification, before the latch wait and
the try/finally.  The line-192 check `if self.model_error:` is Python
truthiness, so an empty recorded error message falls through into the
try block, where `self.model.transcribe` raises `AttributeError`
(`self.model` is `None`) before the engine is consulted, and the
`finally` still runs. -/
def stop_recording (s : DState) (loaderRes : Except String Unit)
    (tr : TranscribeOutcome) (autoType notifyRaises : Bool) :
    DState × List Event :=
  if !s.recording then (s, [])
  else
    let s1 := { s with recording := false }
    let (s2, ev1) :=
      match s1.record_process with
      | some _ => ({ s1 with record_process := none },
                   [Event.terminateCapture])
      | none => (s1, ([] : List Event))
    let ev2 := [Event.notifyEv "Transcribing..."]
    if notifyRaises then
      -- the "Transcribing..." notification raises out of the handler
      (s2, ev1 ++ ev2)
    else
    let s3 := afterWait loaderRes s2
    let ev3 := [Event.awaitModel]
    if pyTruthyErr s3.model_error then
      -- early `return` (line 195): the try/finally is never entered
      (s3, ev1 ++ ev2 ++ ev3 ++ [Event.notifyEv "Error"])
    else if s3.model_error.isSome then
      -- load failed with an empty message: the try is entered,
      -- `self.model.transcribe` raises `AttributeError` (no engine
      -- consulted), the `except` notifies and the `finally` cleans up
      let (s4, evFin) := cleanupTemp s3
      (s4, ev1 ++ ev2 ++ ev3 ++ [Event.notifyEv "Error"] ++ evFin)
    else
      match s3.temp_file with
      | none =>
        -- `self.temp_file.name` raises; caught by `except`, `finally`
        -- finds no temp file recorded
        let (s4, evFin) := cleanupTemp s3
        (s4, ev1 ++ ev2 ++ ev3 ++ [Event.notifyEv "Error"] ++ evFin)
      | some f =>
        match tr with
        | .raises _ =>
          let (s4, evFin) := cleanupTemp s3
          (s4, ev1 ++ ev2 ++ ev3 ++
               [Event.transcribeCall f, Event.notifyEv "Error"] ++ evFin)
        | .segs l =>
          let text := transcriptOf l
          let evBody :=
            if text = "" then [Event.notifyEv "No speech detected"]
            else
              [Event.setClipboard text] ++
              (if autoType then [Event.typeText text] else []) ++
              [Event.notifyEv "Copied!"]
          let (s4, evFin) := cleanupTemp s3
          (s4, ev1 ++ ev2 ++ ev3 ++ [Event.transcribeCall f] ++
               evBody ++ evFin)

/-- An action delivered to the single controller thread: a hotkey Down
edge, a hotkey Up edge (carrying the environment's responses used while
handling it), or the background loader finishing between edges. -/
inductive Act
  | down (newTemp pid : Nat)
  | up (loaderRes : Except String Unit) (tr : TranscribeOutcome)
  | loaderFinish (r : Except String Unit)

/-- One controller step. -/
def step (autoType notifyRaises : Bool) (s : DState) : Act → DState × List Event
  | .down t p => start_recording s t p
  | .up r tr => stop_recording s r tr autoType notifyRaises
  | .loaderFinish r => (if s.loaderDone then s else applyLoaderFinish r s, [])

/-- Run a finite action sequence from a state, accumulating the trace. -/
def run (autoType notifyRaises : Bool) (s : DState) :
    List Act → DState × List Event
  | [] => (s, [])
  | a :: as =>
    let p := step autoType notifyRaises s a
    let q := run autoType notifyRaises p.1 as
    (q.1, p.2 ++ q.2)

/-! ### Claim C7: transcript assembly -/

/-- C7: the final transcript is each segment's text trimmed of
surrounding whitespace, joined by single spaces in emission order
(stated against the independent `String.intercalate` rendering of the
spec's words); the empty segment sequence yields the empty string; and
segments `["hello", " world "]` yield `"hello world"`. -/
theorem C7_transcript_join :
    (∀ segs : List String, transcriptOf segs = specTranscript segs)
    ∧ transcriptOf [] = ""
    ∧ transcriptOf ["hello", " world "] = "hello world" := by
  refine ⟨fun segs => pyJoin_eq_intercalate " " (segs.map pyStrip), rfl, ?_⟩
  decide

/-! ### Claim C3: notifier error handling -/

/-- C3 counterexample: with notifications enabled and the `notify-send`
command absent, `Dictation.notify` surfaces the spawn exception
(`FileNotFoundError`) to its caller, contradicting "any failure to send
is caught and discarded". -/
theorem C3_counterexample :
    Dictation.notify true SpawnOutcome.absent
        "Error" "Model failed to load" "dialog-error" 3000
      = Except.error "FileNotFoundError: notify-send" := rfl

/-- C3 amended: a notification command that runs and fails (any exit
status) is discarded, and a disabled notifier never runs the command;
but an absent notification command raises to the caller. -/
theorem C3_notify_discards_failures :
    ∀ (b : Bool) (code : Int) (title message icon : String) (timeout : Nat)
      (o : SpawnOutcome),
      Dictation.notify b (SpawnOutcome.ran code) title message icon timeout
          = Except.ok ()
      ∧ (b = false →
          Dictation.notify b o title message icon timeout = Except.ok ()) := by
  intro b code title message icon timeout o
  constructor
  · cases b <;> rfl
  · intro hb; subst hb; rfl

/-- Witness for `C3_notify_discards_failures` at a concrete input. -/
theorem C3_witness :
    Dictation.notify false SpawnOutcome.absent "T" "M" "I" 5 = Except.ok () :=
  (C3_notify_discards_failures false 0 "T" "M" "I" 5 SpawnOutcome.absent).2 rfl

/-! ### Claim C4: config loading -/

/-- C4 counterexample: a config file whose `[behavior] auto_type` value
is present but not in the boolean vocabulary makes `load_config` raise
`ValueError` instead of silently falling back to the default,
contradicting "config loading succeeds for every config file content". -/
theorem C4_counterexample :
    load_config [("behavior", [("auto_type", "maybe")])]
      = Except.error "ValueError: Not a boolean: maybe" := rfl

/-- A string option is absent or its present value interpolates. -/
def strOptOk (file : ConfigFile) (sect key : String) : Prop :=
  ∀ v, cfgLookup file sect key = some v →
    ∃ w, cfgInterp file sect v = Except.ok w

/-- A boolean option is absent or its present value interpolates to a
member of the boolean vocabulary. -/
def boolOptOk (file : ConfigFile) (sect key : String) : Prop :=
  ∀ v, cfgLookup file sect key = some v →
    ∃ w, cfgInterp file sect v = Except.ok w ∧ (pyParseBool w).isSome = true

theorem cfgGetFallback_ok (file : ConfigFile) (sect key fb : String)
    (h : strOptOk file sect key) :
    ∃ w, cfgGetFallback file sect key fb = Except.ok w := by
  unfold cfgGetFallback
  rcases hl : cfgLookup file sect key with _ | v
  · exact ⟨fb, rfl⟩
  · obtain ⟨w, hw⟩ := h v hl
    exact ⟨w, by simp [hw]⟩

theorem cfgGetbooleanFallback_ok (file : ConfigFile) (sect key : String)
    (fb : Bool) (h : boolOptOk file sect key) :
    ∃ b, cfgGetbooleanFallback file sect key fb = Except.ok b := by
  unfold cfgGetbooleanFallback
  rcases hl : cfgLookup file sect key with _ | v
  · exact ⟨fb, rfl⟩
  · obtain ⟨w, hw, hp⟩ := h v hl
    rcases hb : pyParseBool w with _ | b
    · rw [hb] at hp; simp at hp
    · exact ⟨b, by simp [hw, hb]⟩

/-- C4 amended: an absent file, absent sections or absent keys fall back
to the documented defaults without error — an empty config file yields
exactly the default set — and loading succeeds whenever every present
option value interpolates and the two boolean options, when present,
interpolate to members of the boolean vocabulary; but a present
malformed value raises: a malformed boolean raises `ValueError`, and a
stray percent in any value (e.g. `model = 50%`) raises
`InterpolationSyntaxError`. -/
theorem C4_load_config_defaults :
    load_config ([] : ConfigFile) = Except.ok defaultConfig
    ∧ load_config [("whisper", [("model", "50%")])]
        = Except.error interpSyntaxErr
    ∧ ∀ file : ConfigFile,
        strOptOk file "whisper" "model" →
        strOptOk file "whisper" "device" →
        strOptOk file "whisper" "compute_type" →
        strOptOk file "hotkey" "key" →
        boolOptOk file "behavior" "auto_type" →
        boolOptOk file "behavior" "notifications" →
        ∃ c, load_config file = Except.ok c := by
  refine ⟨rfl, rfl, ?_⟩
  intro file h1 h2 h3 h4 h5 h6
  obtain ⟨w1, e1⟩ := cfgGetFallback_ok file "whisper" "model" "base.en" h1
  obtain ⟨w2, e2⟩ := cfgGetFallback_ok file "whisper" "device" "cpu" h2
  obtain ⟨w3, e3⟩ := cfgGetFallback_ok file "whisper" "compute_type" "int8" h3
  obtain ⟨w4, e4⟩ := cfgGetFallback_ok file "hotkey" "key" "f12" h4
  obtain ⟨b1, e5⟩ := cfgGetbooleanFallback_ok file "behavior" "auto_type" true h5
  obtain ⟨b2, e6⟩ :=
    cfgGetbooleanFallback_ok file "behavior" "notifications" true h6
  refine ⟨{ model := w1, device := w2, compute_type := w3, key := w4,
            auto_type := b1, notifications := b2 }, ?_⟩
  unfold load_config
  simp only [e1, e2, e3, e4, e5, e6]

/-- Witness for `C4_load_config_defaults` at a concrete config file. -/
theorem C4_witness :
    ∃ c, load_config [("behavior", [("auto_type", "yes")])] = Except.ok c := by
  have habs1 : cfgLookup [("behavior", [("auto_type", "yes")])]
      "whisper" "model" = none := rfl
  have habs2 : cfgLookup [("behavior", [("auto_type", "yes")])]
      "whisper" "device" = none := rfl
  have habs3 : cfgLookup [("behavior", [("auto_type", "yes")])]
      "whisper" "compute_type" = none := rfl
  have habs4 : cfgLookup [("behavior", [("auto_type", "yes")])]
      "hotkey" "key" = none := rfl
  have habs6 : cfgLookup [("behavior", [("auto_type", "yes")])]
      "behavior" "notifications" = none := rfl
  have hyes : cfgLookup [("behavior", [("auto_type", "yes")])]
      "behavior" "auto_type" = some "yes" := rfl
  exact C4_load_config_defaults.2.2 [("behavior", [("auto_type", "yes")])]
    (fun v h => absurd (habs1 ▸ h) (by simp))
    (fun v h => absurd (habs2 ▸ h) (by simp))
    (fun v h => absurd (habs3 ▸ h) (by simp))
    (fun v h => absurd (habs4 ▸ h) (by simp))
    (fun v h => by
      have hv : ("yes" : String) = v := Option.some.inj (hyes ▸ h)
      rw [← hv]
      exact ⟨"yes", rfl, rfl⟩)
    (fun v h => absurd (habs6 ▸ h) (by simp))

/-! ### Claim C5: Down while the model failed -/

/-- C5 counterexample: the line-152 guard tests Python truthiness of
`model_error`, and `str(e)` of an exception with no message is the
falsy empty string.  At an Idle state whose `ModelState` is
`Failed ""`, a Down edge does start recording: a temp file is created
and the capture process spawned, contradicting "no recording starts". -/
theorem C5_counterexample :
    modelStateOf
        { recording := false, record_process := none, temp_file := none,
          model_error := some "", loaderDone := true, fsFiles := [] }
      = MState.Failed ""
    ∧ (start_recording
        { recording := false, record_process := none, temp_file := none,
          model_error := some "", loaderDone := true, fsFiles := [] }
        5 6).1.recording = true
    ∧ (start_recording
        { recording := false, record_process := none, temp_file := none,
          model_error := some "", loaderDone := true, fsFiles := [] }
        5 6).2
      = [Event.createTemp 5, Event.spawnCapture 5,
         Event.notifyEv "Recording..."] :=
  ⟨rfl, rfl, rfl⟩

/-- C5 amended: a Down edge while not recording and with
`ModelState = Failed e` starts nothing — state unchanged, no effect
emitted — whenever the recorded error message `e` is non-empty
(Python-truthy); when `e` is the empty string the guard does not fire
and recording does start. -/
theorem C5_down_refused_when_failed :
    ∀ (s : DState) (t p : Nat) (e : String),
      s.recording = false → modelStateOf s = MState.Failed e →
      ((e ≠ "" → start_recording s t p = (s, []))
        ∧ (e = "" →
            (start_recording s t p).1.recording = true
            ∧ (start_recording s t p).2
              = [Event.createTemp t, Event.spawnCapture t,
                 Event.notifyEv "Recording..."])) := by
  intro s t p e hrec hm
  have herr : s.model_error = some e := by
    unfold modelStateOf at hm
    rcases h : s.model_error with _ | e2
    · by_cases hl : s.loaderDone = true <;> simp [hl, h] at hm
    · rw [h] at hm
      by_cases hl : s.loaderDone = true <;> simp [hl] at hm
      rw [hm]
  constructor
  · intro hne
    unfold start_recording pyTruthyErr
    rw [hrec, herr]
    simp [hne]
  · intro he
    subst he
    unfold start_recording pyTruthyErr
    rw [hrec, herr]
    simp

/-- Witness for `C5_down_refused_when_failed`: refusal at a concrete
state with a non-empty recorded error. -/
theorem C5_witness :
    start_recording
        { recording := false, record_process := none, temp_file := none,
          model_error := some "boom", loaderDone := true, fsFiles := [] } 7 8
      = ({ recording := false, record_process := none, temp_file := none,
           model_error := some "boom", loaderDone := true, fsFiles := [] }, []) :=
  (C5_down_refused_when_failed
    { recording := false, record_process := none, temp_file := none,
      model_error := some "boom", loaderDone := true, fsFiles := [] }
    7 8 "boom" rfl rfl).1 (by simp)

/-! ### Claim C6: idempotent edges -/

/-- C6: a Down edge while already recording and an Up edge while idle
are both no-ops: the state is returned unchanged and no effect is
emitted. -/
theorem C6_idempotent_edges :
    ∀ (s : DState) (t p : Nat) (r : Except String Unit)
      (tr : TranscribeOutcome) (a nr : Bool),
      (s.recording = true → start_recording s t p = (s, []))
      ∧ (s.recording = false → stop_recording s r tr a nr = (s, [])) := by
  intro s t p r tr a nr
  constructor
  · intro h
    unfold start_recording
    rw [h]
    rfl
  · intro h
    unfold stop_recording
    rw [h]
    rfl

/-- Witness for `C6_idempotent_edges` at concrete states: both the
Down-while-Recording and Up-while-Idle cases. -/
theorem C6_witness :
    start_recording
        { recording := true, record_process := some 1, temp_file := some 0,
          model_error := none, loaderDone := false, fsFiles := [0] } 5 6
      = ({ recording := true, record_process := some 1, temp_file := some 0,
           model_error := none, loaderDone := false, fsFiles := [0] }, [])
    ∧ stop_recording initState (Except.ok ()) (TranscribeOutcome.segs [])
        true false
      = (initState, []) :=
  ⟨(C6_idempotent_edges _ 5 6 (Except.ok ())
      (TranscribeOutcome.segs []) true false).1 rfl,
   (C6_idempotent_edges initState 5 6 (Except.ok ())
      (TranscribeOutcome.segs []) true false).2 rfl⟩

/-! ### Claim C1: temp-file cleanup -/

/-- C1 counterexample: start recording while the loader is still
pending (reachable from the initial state by one Down edge), then
deliver the Up edge with the loader finishing in failure (non-empty
message, no notification failure).  The claim says the temp file is
deleted exactly once on this exit path too, but the handling emits no
unlink event and the file remains on disk. -/
theorem C1_counterexample :
    ((stop_recording (run true false initState [Act.down 0 1]).1
        (Except.error "boom")
        (TranscribeOutcome.segs []) true false).2.count
        (Event.unlinkTemp 0) = 0)
    ∧ (stop_recording (run true false initState [Act.down 0 1]).1
        (Except.error "boom")
        (TranscribeOutcome.segs []) true false).1.fsFiles = [0] := by
  constructor <;> rfl

/-- C1 amended: consider an Up edge ending a recording whose temp file
is the one on disk.  When the status notifications themselves do not
raise: if the model resolved `Ready`, the temp file is deleted exactly
once — on the success, empty-text and transcription-exception paths
alike; if the model resolved `Failed` with a non-empty error message,
the early return bypasses the `try/finally`, no deletion happens, and
the file remains on disk; if the model resolved `Failed` with an empty
(Python-falsy) message, the handler enters the try, the transcribe
attribute access raises, and the `finally` deletes the file exactly
once.  If the notification call itself raises (notifications enabled
with the notification command absent, cf. C3), the handler aborts
before the try/finally and the file is never deleted, on any path. -/
theorem C1_temp_file_cleanup :
    ∀ (s : DState) (r : Except String Unit) (tr : TranscribeOutcome)
      (a nr : Bool) (f : Nat),
      s.recording = true → s.temp_file = some f → s.fsFiles = [f] →
      ((nr = false → modelStateOf (afterWait r s) = MState.Ready →
        ((stop_recording s r tr a nr).2.count (Event.unlinkTemp f) = 1
          ∧ (stop_recording s r tr a nr).1.fsFiles = []))
      ∧ (∀ e, nr = false → modelStateOf (afterWait r s) = MState.Failed e →
          e ≠ "" →
        ((stop_recording s r tr a nr).2.count (Event.unlinkTemp f) = 0
          ∧ (stop_recording s r tr a nr).1.fsFiles = [f]))
      ∧ (nr = false → modelStateOf (afterWait r s) = MState.Failed "" →
        ((stop_recording s r tr a nr).2.count (Event.unlinkTemp f) = 1
          ∧ (stop_recording s r tr a nr).1.fsFiles = []))
      ∧ (nr = true →
        ((stop_recording s r tr a nr).2.count (Event.unlinkTemp f) = 0
          ∧ (stop_recording s r tr a nr).1.fsFiles = [f]))) := by
  intro s r tr a nr f hrec htf hfs
  obtain ⟨rec, proc, tf, me, ld, fsf⟩ := s
  simp only at hrec htf hfs
  subst hrec htf hfs
  refine ⟨?_, ?_, ?_, ?_⟩
  · rintro rfl hm
    cases ld <;> rcases me with _ | e2 <;> rcases r with _ | e0 <;>
      simp_all [modelStateOf, afterWait, applyLoaderFinish] <;>
      cases proc <;> rcases tr with l | msg <;>
      simp [stop_recording, afterWait, applyLoaderFinish, cleanupTemp,
        pyTruthyErr, List.count_append, List.count_cons] <;>
      split <;>
      simp [List.count_append, List.count_cons] <;>
      cases a <;>
      simp [List.count_cons]
  · rintro e rfl hm hne
    cases ld <;> rcases me with _ | e2 <;> rcases r with _ | e0 <;>
      simp_all [modelStateOf, afterWait, applyLoaderFinish] <;>
      cases proc <;>
      simp_all [stop_recording, afterWait, applyLoaderFinish, cleanupTemp,
        pyTruthyErr, List.count_append, List.count_cons]
  · rintro rfl hm
    cases ld <;> rcases me with _ | e2 <;> rcases r with _ | e0 <;>
      simp_all [modelStateOf, afterWait, applyLoaderFinish] <;>
      cases proc <;>
      simp_all [stop_recording, afterWait, applyLoaderFinish, cleanupTemp,
        pyTruthyErr, List.count_append, List.count_cons]
  · rintro rfl
    cases proc <;>
      simp [stop_recording, List.count_append, List.count_cons]

/-- Witness for `C1_temp_file_cleanup`: a concrete cycle whose
transcription raises still unlinks the temp file exactly once. -/
theorem C1_witness :
    ((stop_recording
        { recording := true, record_process := some 1, temp_file := some 0,
          model_error := none, loaderDone := true, fsFiles := [0] }
        (Except.ok ()) (TranscribeOutcome.raises "err") true false).2.count
        (Event.unlinkTemp 0) = 1)
    ∧ (stop_recording
        { recording := true, record_process := some 1, temp_file := some 0,
          model_error := none, loaderDone := true, fsFiles := [0] }
        (Except.ok ()) (TranscribeOutcome.raises "err") true false).1.fsFiles
      = [] :=
  (C1_temp_file_cleanup
    { recording := true, record_process := some 1, temp_file := some 0,
      model_error := none, loaderDone := true, fsFiles := [0] }
    (Except.ok ()) (TranscribeOutcome.raises "err") true false 0
    rfl rfl rfl).1 rfl rfl

/-! ### Claim C8: empty transcript dispatches nothing -/

/-- C8: when the model is ready and the transcription yields segments
whose joined text is empty, the Up-edge handling never invokes the
output dispatcher — no clipboard-set and no typing event occurs — and a
"No speech detected" notification fires instead. -/
theorem C8_empty_text_no_dispatch :
    ∀ (s : DState) (r : Except String Unit) (segs : List String)
      (a : Bool) (f : Nat),
      s.recording = true → s.temp_file = some f →
      modelStateOf (afterWait r s) = MState.Ready →
      transcriptOf segs = "" →
      (∀ txt, Event.setClipboard txt ∉
          (stop_recording s r (TranscribeOutcome.segs segs) a false).2)
      ∧ (∀ txt, Event.typeText txt ∉
          (stop_recording s r (TranscribeOutcome.segs segs) a false).2)
      ∧ Event.notifyEv "No speech detected" ∈
          (stop_recording s r (TranscribeOutcome.segs segs) a false).2 := by
  intro s r segs a f hrec htf hm htext
  obtain ⟨rec, proc, tf, me, ld, fsf⟩ := s
  simp only at hrec htf
  subst hrec htf
  cases ld <;> rcases me with _ | e2 <;> rcases r with _ | e0 <;>
    simp_all [modelStateOf, afterWait, applyLoaderFinish] <;>
    cases proc <;>
    simp_all [stop_recording, afterWait, applyLoaderFinish, cleanupTemp,
      pyTruthyErr] <;>
    split <;> simp

/-- Witness for `C8_empty_text_no_dispatch` at a concrete cycle with no
segments. -/
theorem C8_witness :
    (∀ txt, Event.setClipboard txt ∉
        (stop_recording
          { recording := true, record_process := some 1, temp_file := some 0,
            model_error := none, loaderDone := true, fsFiles := [0] }
          (Except.ok ()) (TranscribeOutcome.segs []) true false).2)
    ∧ (∀ txt, Event.typeText txt ∉
        (stop_recording
          { recording := true, record_process := some 1, temp_file := some 0,
            model_error := none, loaderDone := true, fsFiles := [0] }
          (Except.ok ()) (TranscribeOutcome.segs []) true false).2)
    ∧ Event.notifyEv "No speech detected" ∈
        (stop_recording
          { recording := true, record_process := some 1, temp_file := some 0,
            model_error := none, loaderDone := true, fsFiles := [0] }
          (Except.ok ()) (TranscribeOutcome.segs []) true false).2 :=
  C8_empty_text_no_dispatch
    { recording := true, record_process := some 1, temp_file := some 0,
      model_error := none, loaderDone := true, fsFiles := [0] }
    (Except.ok ()) [] true 0 rfl rfl rfl rfl

/-! ### Claim C9: Up-edge ordering and the readiness handshake -/

/-- C9: an Up edge while recording first terminates the capture
process, then emits the "Transcribing..." notification, then blocks on
the model latch; after the wait the model state is never `Loading`, and
a transcription call occurs in the remainder only when the model state
resolved to `Ready` — so transcription never runs against an absent
engine, whatever the interleaving with the background loader. -/
theorem C9_stop_ordering_and_readiness :
    ∀ (s : DState) (r : Except String Unit) (tr : TranscribeOutcome)
      (a : Bool) (p : Nat),
      s.recording = true → s.record_process = some p →
      (∃ rest, (stop_recording s r tr a false).2 =
          Event.terminateCapture :: Event.notifyEv "Transcribing..." ::
            Event.awaitModel :: rest
        ∧ ∀ g, Event.transcribeCall g ∈ rest →
            modelStateOf (afterWait r s) = MState.Ready)
      ∧ modelStateOf (afterWait r s) ≠ MState.Loading := by
  intro s r tr a p hrec hproc
  obtain ⟨rec, proc, tf, me, ld, fsf⟩ := s
  simp only at hrec hproc
  subst hrec hproc
  cases ld <;> rcases me with _ | e2 <;> rcases r with _ | e0 <;> cases tf <;>
    rcases tr with l | msg <;>
    simp [stop_recording, afterWait, applyLoaderFinish, cleanupTemp,
      modelStateOf, pyTruthyErr] <;>
    split <;>
    simp <;>
    split <;>
    simp

/-- Witness for `C9_stop_ordering_and_readiness` at a concrete cycle in
which the loader finishes (successfully) only during the wait. -/
theorem C9_witness :
    (∃ rest,
      (stop_recording
          { recording := true, record_process := some 1, temp_file := some 0,
            model_error := none, loaderDone := false, fsFiles := [0] }
          (Except.ok ()) (TranscribeOutcome.segs ["hi"]) true false).2 =
        Event.terminateCapture :: Event.notifyEv "Transcribing..." ::
          Event.awaitModel :: rest
      ∧ ∀ g, Event.transcribeCall g ∈ rest →
          modelStateOf (afterWait (Except.ok ())
            { recording := true, record_process := some 1, temp_file := some 0,
              model_error := none, loaderDone := false, fsFiles := [0] })
            = MState.Ready)
    ∧ modelStateOf (afterWait (Except.ok ())
        { recording := true, record_process := some 1, temp_file := some 0,
          model_error := none, loaderDone := false, fsFiles := [0] })
        ≠ MState.Loading :=
  C9_stop_ordering_and_readiness
    { recording := true, record_process := some 1, temp_file := some 0,
      model_error := none, loaderDone := false, fsFiles := [0] }
    (Except.ok ()) (TranscribeOutcome.segs ["hi"]) true 1 rfl rfl

/-! ### Claim C10: the non-empty check is string truthiness -/

theorem space_append_ne_empty (z : String) : " " ++ z ≠ "" := by
  obtain ⟨zd⟩ := z
  intro h
  have hd : (' ' :: zd) = ([] : List Char) := congrArg String.data h
  simp at hd

theorem transcript_two_blank_ne_empty (x y : String) (rest : List String)
    (hx : pyStrip x = "") (hy : pyStrip y = "") :
    transcriptOf (x :: y :: rest) ≠ "" := by
  have : transcriptOf (x :: y :: rest) =
      " " ++ pyJoin " " ("" :: rest.map pyStrip) := by
    simp only [transcriptOf, List.map, hx, hy, pyJoin]
    rfl
  rw [this]
  exact space_append_ne_empty _

/-- C10: the controller's "non-empty text" check is Python string
truthiness, not presence of non-whitespace: when two or more segments
each trim to the empty string, the joined transcript is a non-empty
whitespace-only string, which is treated as speech — it is sent to the
clipboard and, when auto-type is enabled, to typing simulation. -/
theorem C10_whitespace_transcript_dispatched :
    ∀ (s : DState) (r : Except String Unit) (segs : List String)
      (a : Bool) (f : Nat),
      s.recording = true → s.temp_file = some f →
      modelStateOf (afterWait r s) = MState.Ready →
      2 ≤ segs.length → (∀ x ∈ segs, pyStrip x = "") →
      transcriptOf segs ≠ ""
      ∧ Event.setClipboard (transcriptOf segs) ∈
          (stop_recording s r (TranscribeOutcome.segs segs) a false).2
      ∧ (a = true → Event.typeText (transcriptOf segs) ∈
          (stop_recording s r (TranscribeOutcome.segs segs) a false).2) := by
  intro s r segs a f hrec htf hm hlen hblank
  have htext : transcriptOf segs ≠ "" := by
    rcases segs with _ | ⟨x, _ | ⟨y, rest⟩⟩
    · simp at hlen
    · simp at hlen
    · exact transcript_two_blank_ne_empty x y rest
        (hblank x (by simp)) (hblank y (by simp))
  refine ⟨htext, ?_⟩
  obtain ⟨rec, proc, tf, me, ld, fsf⟩ := s
  simp only at hrec htf
  subst hrec htf
  cases ld <;> rcases me with _ | e2 <;> rcases r with _ | e0 <;>
    simp_all [modelStateOf, afterWait, applyLoaderFinish] <;>
    cases proc <;>
    simp_all [stop_recording, afterWait, applyLoaderFinish, cleanupTemp,
      pyTruthyErr]

/-- Witness for `C10_whitespace_transcript_dispatched`: two segments of
pure whitespace yield the one-space transcript, which is dispatched to
both the clipboard and typing. -/
theorem C10_witness :
    transcriptOf ["  ", " "] ≠ ""
    ∧ Event.setClipboard (transcriptOf ["  ", " "]) ∈
        (stop_recording
          { recording := true, record_process := some 1, temp_file := some 0,
            model_error := none, loaderDone := true, fsFiles := [0] }
          (Except.ok ()) (TranscribeOutcome.segs ["  ", " "]) true false).2
    ∧ (true = true → Event.typeText (transcriptOf ["  ", " "]) ∈
        (stop_recording
          { recording := true, record_process := some 1, temp_file := some 0,
            model_error := none, loaderDone := true, fsFiles := [0] }
          (Except.ok ()) (TranscribeOutcome.segs ["  ", " "]) true false).2) :=
  C10_whitespace_transcript_dispatched
    { recording := true, record_process := some 1, temp_file := some 0,
      model_error := none, loaderDone := true, fsFiles := [0] }
    (Except.ok ()) ["  ", " "] true 0 rfl rfl rfl (by decide)
    (by intro x hx
        simp only [List.mem_cons, List.not_mem_nil, or_false] at hx
        rcases hx with h | h <;> subst h <;> decide)

/-! ### Claim C2: at most one recording session alive -/

/-- A live session is fully allocated: a process handle and a temp file. -/
def sessionInv (s : DState) : Prop :=
  s.recording = true → s.record_process.isSome = true ∧ s.temp_file.isSome = true

/-- Number of sessions created in a trace (temp-file allocations). -/
def createCount (tr : List Event) : Nat :=
  tr.countP (fun e => match e with | Event.createTemp _ => true | _ => false)

/-- Number of sessions torn down in a trace (capture terminations). -/
def terminateCount (tr : List Event) : Nat :=
  tr.countP (fun e => match e with | Event.terminateCapture => true | _ => false)

theorem step_session_accounting (a nr : Bool) (s : DState) (act : Act)
    (hInv : sessionInv s) :
    sessionInv (step a nr s act).1
    ∧ createCount (step a nr s act).2 + (if s.recording then 1 else 0)
        = terminateCount (step a nr s act).2
          + (if (step a nr s act).1.recording then 1 else 0) := by
  obtain ⟨rec, proc, tf, me, ld, fsf⟩ := s
  rcases act with ⟨t, p⟩ | ⟨r, tr⟩ | r
  · -- Down edge
    unfold step start_recording
    cases rec
    · cases hme : me
      · simp_all [sessionInv, createCount, terminateCount, List.countP_cons,
          pyTruthyErr]
      · simp_all [sessionInv, createCount, terminateCount, List.countP_cons,
          pyTruthyErr]
        split <;>
        simp_all [sessionInv, createCount, terminateCount, List.countP_cons]
    · simp_all [sessionInv, createCount, terminateCount]
  · -- Up edge
    cases rec
    · unfold step stop_recording
      simp_all [sessionInv, createCount, terminateCount]
    · obtain ⟨hproc, htf⟩ := hInv rfl
      rcases proc with _ | p0
      · simp at hproc
      rcases tf with _ | f0
      · simp at htf
      cases nr <;> cases ld <;> rcases me with _ | e2 <;>
        rcases r with _ | e0 <;> rcases tr with l | msg <;>
        simp_all [step, stop_recording, afterWait, applyLoaderFinish,
          cleanupTemp, pyTruthyErr, sessionInv, createCount, terminateCount,
          List.countP_cons, List.countP_append] <;>
        split <;>
        simp [List.countP_cons, List.countP_append] <;>
        first
          | (cases a <;>
             simp [List.countP_cons] <;>
             split <;>
             simp [List.countP_cons])
          | (split <;>
             simp [List.countP_cons, List.countP_append])
  · -- loader finishing between edges
    unfold step applyLoaderFinish
    cases ld <;>
      simp_all [sessionInv, createCount, terminateCount]

theorem run_session_accounting (a nr : Bool) :
    ∀ (acts : List Act) (s : DState), sessionInv s →
      sessionInv (run a nr s acts).1
      ∧ createCount (run a nr s acts).2 + (if s.recording then 1 else 0)
          = terminateCount (run a nr s acts).2
            + (if (run a nr s acts).1.recording then 1 else 0) := by
  intro acts
  induction acts with
  | nil => intro s h; exact ⟨h, by simp [run, createCount, terminateCount]⟩
  | cons act rest ih =>
    intro s h
    obtain ⟨h1, e1⟩ := step_session_accounting a nr s act h
    obtain ⟨h2, e2⟩ := ih (step a nr s act).1 h1
    refine ⟨h2, ?_⟩
    have hsplit : run a nr s (act :: rest)
        = ((run a nr (step a nr s act).1 rest).1,
           (step a nr s act).2 ++ (run a nr (step a nr s act).1 rest).2) := rfl
    rw [hsplit]
    simp only [List.countP_append, createCount, terminateCount] at *
    omega

/-- C2: over any finite interleaving of Down/Up edges (and loader
completion) from the initial state, a live session is always fully
allocated, the number of sessions ever created exceeds the number torn
down by at most one (so at most one is alive at any point), and a Down
edge delivered while a session is alive is a no-op — it creates no
second session and emits no effect. -/
theorem C2_at_most_one_session :
    ∀ (a nr : Bool) (acts : List Act) (t p : Nat),
      ((run a nr initState acts).1.recording = true →
        (run a nr initState acts).1.record_process.isSome = true
        ∧ (run a nr initState acts).1.temp_file.isSome = true)
      ∧ createCount (run a nr initState acts).2
          ≤ terminateCount (run a nr initState acts).2 + 1
      ∧ ((run a nr initState acts).1.recording = true →
          step a nr (run a nr initState acts).1 (Act.down t p)
            = ((run a nr initState acts).1, [])) := by
  intro a nr acts t p
  obtain ⟨hInv, hacc⟩ := run_session_accounting a nr acts initState (by
    intro h; cases h)
  refine ⟨hInv, ?_, ?_⟩
  · have h0 : (if initState.recording = true then 1 else 0) = 0 := rfl
    rw [h0] at hacc
    split at hacc <;> omega
  · intro halive
    unfold step start_recording
    rw [halive]
    rfl

/-- Witness for `C2_at_most_one_session`: after one Down edge a session
is alive and fully allocated, and a second Down edge is a no-op. -/
theorem C2_witness :
    ((run true false initState [Act.down 0 1]).1.record_process.isSome = true
      ∧ (run true false initState [Act.down 0 1]).1.temp_file.isSome = true)
    ∧ step true false (run true false initState [Act.down 0 1]).1 (Act.down 2 3)
        = ((run true false initState [Act.down 0 1]).1, []) :=
  ⟨(C2_at_most_one_session true false [Act.down 0 1] 2 3).1 rfl,
   (C2_at_most_one_session true false [Act.down 0 1] 2 3).2.2 rfl⟩

end SoupaWhisper
